import Mathlib

/-!
A shallow embedding of the FreeKassa payment-gateway client
(`freekassa-client/client.py`) and proofs of its specified properties.

External libraries are modelled at their interfaces: the hash functions
(`hashlib.md5(...).hexdigest()`, `hmac.new(..., 'sha256').hexdigest()`) are
abstract parameters gathered in a `Hashes` record, and the HTTP layer
(`requests.post`) is an abstract `Transport` function from requests to
responses; each API operation also returns the list of network requests it
issued, so that "no network call" is expressible.
-/

namespace FreeKassa

/-- Abstract interface of the hash primitives used by the client:
`md5hex s` models `hashlib.md5(s.encode('utf-8')).hexdigest()` and
`hmacSha256Hex msg key` models
`hmac.new(key.encode('utf-8'), msg.encode('utf-8'), 'sha256').hexdigest()`. -/
structure Hashes where
  md5hex : String → String
  hmacSha256Hex : String → String → String

/-- Client configuration, the fields set by `FreeKassaClient.__init__`. -/
structure Config where
  merchantId : Int
  secret1 : String
  secret2 : String
  apiKey : Option String
  successUrl : Option String
  failUrl : Option String
  notifyUrl : Option String
  apiUrl : String
  uiUrl : String
  nonce : Int
deriving DecidableEq

/-- Python truthiness of an optional string: `None` and `''` are falsy,
every non-empty string is truthy. -/
def pyTruthyStrOpt : Option String → Bool
  | none => false
  | some s => !(s == "")

/-- Embeds `FreeKassaClient.__init__`: stores the identity and secrets, sets
the default base URLs, then overwrites each base URL when the corresponding
argument is truthy (`if api_url:` / `if ui_url:`). -/
def mkClient (merchant_id : Int) (secret_word_1 secret_word_2 : String)
    (api_key success_url fail_url notify_url api_url ui_url : Option String)
    (nonce : Int) : Config :=
  { merchantId := merchant_id
    secret1 := secret_word_1
    secret2 := secret_word_2
    apiKey := api_key
    successUrl := success_url
    failUrl := fail_url
    notifyUrl := notify_url
    apiUrl := if pyTruthyStrOpt api_url then api_url.getD "" else "https://api.fk.life/v1/"
    uiUrl := if pyTruthyStrOpt ui_url then ui_url.getD "" else "https://pay.fk.money/"
    nonce := nonce }

/-- Embeds `verify_notify`: recompute the MD5 of
`merchant_id:amount:secret2:order_id` and compare case-insensitively. -/
def verify_notify (H : Hashes) (c : Config) (amount order_id sign : String) : Bool :=
  (H.md5hex (toString c.merchantId ++ ":" ++ amount ++ ":" ++ c.secret2
      ++ ":" ++ order_id)).toLower == sign.toLower

/-! ### Python `Decimal` and its fixed-point 2-decimal formatting -/

/-- A Python `Decimal`: a sign, a natural coefficient and a base-10 exponent;
the value is `(-1)^neg * coeff * 10^exp` (the sign is kept even at zero,
as `Decimal` does). -/
structure Dec where
  neg : Bool
  coeff : Nat
  exp : Int
deriving DecidableEq

/-- Round `num / den` to the nearest natural number, ties to even
(the `ROUND_HALF_EVEN` rounding of Python's default decimal context, which
`f'{amount:.2f}'` applies to a `Decimal`). -/
def roundHalfEvenNat (num den : Nat) : Nat :=
  if 2 * (num % den) < den then num / den
  else if den < 2 * (num % den) then num / den + 1
  else if num / den % 2 = 0 then num / den else num / den + 1

/-- Numerator of `|amount| * 100` as an exact fraction with denominator
`scaledDen`. -/
def scaledNum (d : Dec) : Nat :=
  if 0 ≤ d.exp + 2 then d.coeff * 10 ^ (d.exp + 2).toNat else d.coeff

/-- Denominator of `|amount| * 100` as an exact fraction. -/
def scaledDen (d : Dec) : Nat :=
  if 0 ≤ d.exp + 2 then 1 else 10 ^ (-(d.exp + 2)).toNat

/-- The number of cents printed by `f'{amount:.2f}'`: `|amount| * 100`
rounded half-even to an integer. -/
def centsOf (d : Dec) : Nat := roundHalfEvenNat (scaledNum d) (scaledDen d)

/-- Exactly two decimal digits, most significant first. -/
def twoDigits (n : Nat) : String :=
  String.mk [Nat.digitChar (n / 10 % 10), Nat.digitChar (n % 10)]

/-- Embeds the f-string formatting `f'{amount:.2f}'` on a `Decimal`:
sign, integer part, `'.'`, and exactly two fractional digits, rounding
half-even (the decimal module's default context rounding). -/
def format2f (d : Dec) : String :=
  (if d.neg then "-" else "") ++ toString (centsOf d / 100) ++ "." ++ twoDigits (centsOf d % 100)

/-! ### `urllib.parse.urlencode` -/

/-- UTF-8 bytes of one character. -/
def utf8Bytes (c : Char) : List Nat :=
  let v := c.toNat
  if v < 128 then [v]
  else if v < 2048 then [192 + v / 64, 128 + v % 64]
  else if v < 65536 then [224 + v / 4096, 128 + v / 64 % 64, 128 + v % 64]
  else [240 + v / 262144, 128 + v / 4096 % 64, 128 + v / 64 % 64, 128 + v % 64]

/-- Upper-case hex digit. -/
def hexUpper (n : Nat) : Char :=
  if n < 10 then Char.ofNat (48 + n) else Char.ofNat (55 + n)

/-- The `%XX` escape of one byte, upper-case hex as `urllib.parse.quote` emits. -/
def percentByte (b : Nat) : String :=
  String.mk ['%', hexUpper (b / 16), hexUpper (b % 16)]

/-- Action of `quote_plus` on a single character: spaces become `+`, the always-safe
characters (ASCII alphanumerics and `_.-~`) pass through, everything else is
percent-encoded byte by byte. -/
def quoteChar (c : Char) : String :=
  if c = ' ' then "+"
  else if c.isAlphanum ∨ c = '_' ∨ c = '.' ∨ c = '-' ∨ c = '~' then String.singleton c
  else String.join ((utf8Bytes c).map percentByte)

/-- Embeds `urllib.parse.quote_plus` (the default `quote_via` of
`urlencode`). -/
def quotePlus (s : String) : String :=
  String.join (s.data.map quoteChar)

/-- Embeds `urllib.parse.urlencode` on an ordered list of string pairs:
`key=value` items joined by `&`, both sides quoted. -/
def urlencode (ps : List (String × String)) : String :=
  String.intercalate "&" (ps.map fun kv => quotePlus kv.1 ++ "=" ++ quotePlus kv.2)

/-- The f-string `sign_str` of `ui_create_order`:
`merchant_id:amount_str:secret1:currency:payment_id`. -/
def ui_sign_str (c : Config) (amount : Dec) (currency payment_id : String) : String :=
  toString c.merchantId ++ ":" ++ format2f amount ++ ":" ++ c.secret1
    ++ ":" ++ currency ++ ":" ++ payment_id

/-- Embeds `ui_create_order`: formats the amount to two decimals, signs
`merchant_id:amount_str:secret1:currency:payment_id` with MD5, and returns
`ui_url ? urlencoded-payload` with keys `m, oa, currency, o, s, i` in the
dict's insertion order. -/
def ui_create_order (H : Hashes) (c : Config) (amount : Dec)
    (currency payment_id : String) (payment_method_id : Int) : String :=
  c.uiUrl ++ "?" ++ urlencode
    [("m", toString c.merchantId),
     ("oa", format2f amount),
     ("currency", currency),
     ("o", payment_id),
     ("s", H.md5hex (ui_sign_str c amount currency payment_id)),
     ("i", toString payment_method_id)]

/-! ### JSON payloads, signing, and the HTTP transport -/

/-- A JSON payload value: the payloads only ever hold integers and strings. -/
inductive JVal where
  | int (n : Int)
  | str (s : String)
deriving DecidableEq

/-- Python `str()` on a payload value. -/
def pyStr : JVal → String
  | .int n => toString n
  | .str s => s

/-- Insert a pair into a key-sorted list, keeping it sorted by key
(code-point string order, as Python compares `str`). -/
def insertPair (x : String × JVal) : List (String × JVal) → List (String × JVal)
  | [] => [x]
  | y :: ys => if x.1 < y.1 then x :: y :: ys else y :: insertPair x ys

/-- Sort an association list by key; on the distinct-key dicts this client
builds, this yields the pairs in the order of `sorted(payload.keys())`. -/
def sortPairs : List (String × JVal) → List (String × JVal)
  | [] => []
  | x :: xs => insertPair x (sortPairs xs)

/-- Embeds `keys = sorted(payload.keys())` followed by
`'|'.join(str(payload[k]) for k in keys)`. -/
def signMessage (p : List (String × JVal)) : String :=
  String.intercalate "|" ((sortPairs p).map fun kv => pyStr kv.2)

/-- One `requests.post(url, json=payload, timeout=10)` call, by its
observable data. -/
structure NetRequest where
  url : String
  jsonBody : List (String × JVal)
deriving DecidableEq

/-- The transport's answer: an HTTP status code and the outcome of `r.json()`
(`.ok` with the decoded body, `.error` when the body is not valid JSON). -/
structure HttpResp where
  status : Nat
  jsonResult : Except String String

/-- An abstract HTTP transport standing for the `requests` library. -/
abbrev Transport : Type := NetRequest → HttpResp

/-- The client's error taxonomy: the `RuntimeError` raised when the API key
is missing (the spec's `ConfigurationError`), `raise_for_status` failures,
and JSON decoding failures. -/
inductive FKError where
  | configurationError
  | httpStatusError (status : Nat)
  | jsonParseError (msg : String)
deriving DecidableEq

/-- The order-creation payload dict, in its insertion order. -/
def api_create_payload (c : Config) (nonce i : Int)
    (user_email user_ip payment_id : String) (amount : Dec)
    (currency : String) : List (String × JVal) :=
  [("shopId", .int c.merchantId),
   ("nonce", .int nonce),
   ("amount", .str (format2f amount)),
   ("currency", .str currency),
   ("paymentId", .str payment_id),
   ("ip", .str user_ip),
   ("email", .str user_email),
   ("i", .int i)]

/-- Embeds `api_create_order`: requires a truthy API key, signs the sorted
pipe-joined payload values with HMAC-SHA256, appends the signature, posts to
`api_url + 'orders/create'` and returns `r.json()` with no status check.
The returned pair is (requests issued, result). -/
def api_create_order (H : Hashes) (t : Transport) (c : Config) (nonce i : Int)
    (user_email user_ip payment_id : String) (amount : Dec) (currency : String) :
    List NetRequest × Except FKError String :=
  if pyTruthyStrOpt c.apiKey = false then ([], .error .configurationError)
  else
    let payload := api_create_payload c nonce i user_email user_ip payment_id amount currency
    let signature := H.hmacSha256Hex (signMessage payload) (c.apiKey.getD "")
    let req : NetRequest := ⟨c.apiUrl ++ "orders/create", payload ++ [("signature", .str signature)]⟩
    let r := t req
    ([req], r.jsonResult.mapError FKError.jsonParseError)

/-- The order-status payload dict, in its insertion order; the nonce is the
client's configured one. -/
def api_get_payload (c : Config) (payment_id : String) : List (String × JVal) :=
  [("shopId", .int c.merchantId),
   ("nonce", .int c.nonce),
   ("paymentId", .str payment_id)]

/-- Embeds `api_get_order`: requires a truthy API key, signs like
`api_create_order`, posts to `api_url + 'orders'`, and applies
`r.raise_for_status()` (an error on any 4xx/5xx status) before `r.json()`. -/
def api_get_order (H : Hashes) (t : Transport) (c : Config) (payment_id : String) :
    List NetRequest × Except FKError String :=
  if pyTruthyStrOpt c.apiKey = false then ([], .error .configurationError)
  else
    let payload := api_get_payload c payment_id
    let signature := H.hmacSha256Hex (signMessage payload) (c.apiKey.getD "")
    let req : NetRequest := ⟨c.apiUrl ++ "orders", payload ++ [("signature", .str signature)]⟩
    let r := t req
    ([req],
      if 400 ≤ r.status ∧ r.status < 600 then .error (.httpStatusError r.status)
      else r.jsonResult.mapError FKError.jsonParseError)

/-- The exact rational value of a `Dec`. -/
def valQ (d : Dec) : ℚ :=
  (if d.neg then (-1 : ℚ) else 1) * d.coeff * (10 : ℚ) ^ d.exp

/-! ### Claim theorems -/

theorem scaledDen_pos (d : Dec) : 0 < scaledDen d := by
  unfold scaledDen
  split_ifs
  · exact Nat.one_pos
  · positivity

theorem halfEven_cases (num den : Nat) :
    (roundHalfEvenNat num den = num / den
        ∧ (2 * (num % den) < den ∨ (2 * (num % den) = den ∧ num / den % 2 = 0)))
    ∨ (roundHalfEvenNat num den = num / den + 1
        ∧ (den < 2 * (num % den) ∨ (2 * (num % den) = den ∧ (num / den + 1) % 2 = 0))) := by
  unfold roundHalfEvenNat
  split_ifs with h1 h2 h3 <;> omega

/-- The value `roundHalfEvenNat num den` is the integer nearest to `num / den`, and at
an exact tie it is the even one. -/
theorem roundHalfEvenNat_nearest (num den : Nat) (hden : 0 < den) :
    2 * ((num : ℤ) - (roundHalfEvenNat num den : ℤ) * (den : ℤ)).natAbs < den
    ∨ (2 * ((num : ℤ) - (roundHalfEvenNat num den : ℤ) * (den : ℤ)).natAbs = den
       ∧ roundHalfEvenNat num den % 2 = 0) := by
  have hq : den * (num / den) + num % den = num := Nat.div_add_mod num den
  have hr : num % den < den := Nat.mod_lt num hden
  have hnum : (num : ℤ) = (den : ℤ) * ((num / den : Nat) : ℤ) + ((num % den : Nat) : ℤ) := by
    exact_mod_cast hq.symm
  rcases halfEven_cases num den with ⟨hEq, hC⟩ | ⟨hEq, hC⟩
  · rw [hEq]
    have e1 : (num : ℤ) - ((num / den : Nat) : ℤ) * (den : ℤ) = ((num % den : Nat) : ℤ) := by
      rw [hnum]; ring
    rw [e1]
    omega
  · rw [hEq]
    have e2 : (num : ℤ) - ((num / den + 1 : Nat) : ℤ) * (den : ℤ)
        = ((num % den : Nat) : ℤ) - (den : ℤ) := by
      rw [Nat.cast_add, Nat.cast_one, hnum]; ring
    rw [e2]
    omega

theorem abs_valQ (d : Dec) : |valQ d| = (d.coeff : ℚ) * (10 : ℚ) ^ d.exp := by
  unfold valQ
  have h10 : (0 : ℚ) < (10 : ℚ) ^ d.exp := zpow_pos (by norm_num) d.exp
  cases hneg : d.neg <;>
    simp [hneg, abs_mul, abs_of_nonneg h10.le, abs_of_nonneg (Nat.cast_nonneg (α := ℚ) d.coeff)]

/-- The fraction `scaledNum / scaledDen` is exactly `|amount| * 100`. -/
theorem scaled_eq (d : Dec) : (scaledNum d : ℚ) / (scaledDen d : ℚ) = |valQ d| * 100 := by
  rw [abs_valQ]
  unfold scaledNum scaledDen
  by_cases h : 0 ≤ d.exp + 2
  · simp only [if_pos h]
    push_cast
    rw [div_one]
    have hpow : ((10 : ℚ) ^ ((d.exp + 2).toNat)) = (10 : ℚ) ^ ((d.exp + 2) : ℤ) := by
      rw [← zpow_natCast]
      congr 1
      exact Int.toNat_of_nonneg h
    rw [hpow, zpow_add₀ (by norm_num : (10:ℚ) ≠ 0)]
    norm_num
    ring
  · simp only [if_neg h]
    have hpow : ((10 : ℚ) ^ ((-(d.exp + 2)).toNat)) = (10 : ℚ) ^ (-(d.exp + 2) : ℤ) := by
      rw [← zpow_natCast]
      congr 1
      exact Int.toNat_of_nonneg (by omega)
    push_cast
    rw [hpow, zpow_neg, div_eq_mul_inv, inv_inv, zpow_add₀ (by norm_num : (10:ℚ) ≠ 0)]
    norm_num
    ring

/-- Claim C1: `verify_notify` returns true if and only if the provided
signature, compared case-insensitively (both sides lowercased), equals the
hex MD5 of `merchant_id:amount:secret2:order_id` with the amount used
exactly as received; being a total boolean-valued function, it never
throws. -/
theorem verify_notify_iff_md5_match (H : Hashes) (c : Config)
    (amount order_id sign : String) :
    verify_notify H c amount order_id sign = true ↔
      (H.md5hex (toString c.merchantId ++ ":" ++ amount ++ ":" ++ c.secret2
        ++ ":" ++ order_id)).toLower = sign.toLower := by
  simp [verify_notify]

/-- Claim C3: `ui_create_order` signs the colon-joined string
`merchant_id:amount_str:secret1:currency:payment_id` (the amount formatted
to two decimals) with MD5 and returns the UI base URL, `?`, and the
percent-encoded query parameters `m, oa, currency, o, s, i`. -/
theorem ui_create_order_url_structure (H : Hashes) (c : Config) (amount : Dec)
    (currency payment_id : String) (payment_method_id : Int) :
    ui_create_order H c amount currency payment_id payment_method_id
      = c.uiUrl ++ "?" ++ urlencode
          [("m", toString c.merchantId),
           ("oa", format2f amount),
           ("currency", currency),
           ("o", payment_id),
           ("s", H.md5hex (toString c.merchantId ++ ":" ++ format2f amount ++ ":"
              ++ c.secret1 ++ ":" ++ currency ++ ":" ++ payment_id)),
           ("i", toString payment_method_id)] := rfl

/-- Claim C4: with no API key configured (a falsy `api_key`), both
`api_create_order` and `api_get_order` fail with the configuration error
and issue no network request at all. -/
theorem api_requires_api_key (H : Hashes) (t : Transport) (c : Config)
    (nonce i : Int) (user_email user_ip payment_id : String) (amount : Dec)
    (currency : String) (h : pyTruthyStrOpt c.apiKey = false) :
    api_create_order H t c nonce i user_email user_ip payment_id amount currency
        = ([], .error .configurationError)
      ∧ api_get_order H t c payment_id = ([], .error .configurationError) := by
  constructor <;> simp [api_create_order, api_get_order, h]

/-- Claim C4 witness: a client built without an API key, evaluated at
concrete arguments. -/
theorem api_requires_api_key_witness :
    pyTruthyStrOpt (mkClient 66058 "s1" "s2" none none none none none none 1).apiKey = false
    ∧ api_create_order ⟨fun s => s, fun m k => m ++ "#" ++ k⟩ (fun _ => ⟨200, .ok "{}"⟩)
        (mkClient 66058 "s1" "s2" none none none none none none 1)
        7 4 "e@x" "1.2.3.4" "ord-1" ⟨false, 10000, -2⟩ "RUB"
        = ([], .error .configurationError)
    ∧ api_get_order ⟨fun s => s, fun m k => m ++ "#" ++ k⟩ (fun _ => ⟨200, .ok "{}"⟩)
        (mkClient 66058 "s1" "s2" none none none none none none 1) "ord-1"
        = ([], .error .configurationError) :=
  ⟨rfl,
   (api_requires_api_key ⟨fun s => s, fun m k => m ++ "#" ++ k⟩ (fun _ => ⟨200, .ok "{}"⟩)
      (mkClient 66058 "s1" "s2" none none none none none none 1)
      7 4 "e@x" "1.2.3.4" "ord-1" ⟨false, 10000, -2⟩ "RUB" rfl).1,
   (api_requires_api_key ⟨fun s => s, fun m k => m ++ "#" ++ k⟩ (fun _ => ⟨200, .ok "{}"⟩)
      (mkClient 66058 "s1" "s2" none none none none none none 1)
      7 4 "e@x" "1.2.3.4" "ord-1" ⟨false, 10000, -2⟩ "RUB" rfl).2⟩

/-- Claim C10: passing the empty string for `api_url` or `ui_url` at
construction behaves exactly as passing nothing: the constructor treats any
falsy base-URL value as absent, so the resulting clients are equal. -/
theorem empty_base_url_as_absent (merchant_id : Int) (s1 s2 : String)
    (api_key success_url fail_url notify_url : Option String)
    (api_url ui_url : Option String) (nonce : Int) :
    mkClient merchant_id s1 s2 api_key success_url fail_url notify_url (some "") ui_url nonce
        = mkClient merchant_id s1 s2 api_key success_url fail_url notify_url none ui_url nonce
      ∧ mkClient merchant_id s1 s2 api_key success_url fail_url notify_url api_url (some "") nonce
        = mkClient merchant_id s1 s2 api_key success_url fail_url notify_url api_url none nonce :=
  ⟨rfl, rfl⟩

/-- Claim C2: `api_create_order` sorts the eight payload keys
lexicographically — giving the order `amount, currency, email, i, ip,
nonce, paymentId, shopId` — joins the stringified values with `|`, signs
that message with hex HMAC-SHA256 under the API key, and only then appends
the `signature` field to the posted payload, so the signature field itself
is excluded from the signed message. -/
theorem api_create_order_signing (H : Hashes) (t : Transport) (c : Config)
    (nonce i : Int) (user_email user_ip payment_id : String) (amount : Dec)
    (currency : String) (h : pyTruthyStrOpt c.apiKey = true) :
    (sortPairs (api_create_payload c nonce i user_email user_ip payment_id amount currency)).map
        Prod.fst = ["amount", "currency", "email", "i", "ip", "nonce", "paymentId", "shopId"]
    ∧ signMessage (api_create_payload c nonce i user_email user_ip payment_id amount currency)
        = format2f amount ++ "|" ++ currency ++ "|" ++ user_email ++ "|" ++ toString i ++ "|"
          ++ user_ip ++ "|" ++ toString nonce ++ "|" ++ payment_id ++ "|" ++ toString c.merchantId
    ∧ (api_create_order H t c nonce i user_email user_ip payment_id amount currency).1
        = [⟨c.apiUrl ++ "orders/create",
            api_create_payload c nonce i user_email user_ip payment_id amount currency
              ++ [("signature", .str (H.hmacSha256Hex
                    (signMessage (api_create_payload c nonce i user_email user_ip payment_id amount currency))
                    (c.apiKey.getD "")))]⟩] := by
  refine ⟨?_, ?_, ?_⟩
  · simp +decide [sortPairs, insertPair, api_create_payload]
  · simp +decide [signMessage, sortPairs, insertPair, api_create_payload, pyStr,
      String.intercalate, String.intercalate.go, String.append_assoc]
  · simp [api_create_order, h]

/-- Claim C2 witness: the signing procedure evaluated on a concrete client
and order. -/
theorem api_create_order_signing_witness :
    pyTruthyStrOpt (Config.apiKey (mkClient 66058 "s1" "s2" (some "key") none none none none none 1)) = true
    ∧ signMessage (api_create_payload (mkClient 66058 "s1" "s2" (some "key") none none none none none 1)
        7 4 "e@x" "1.2.3.4" "ord-1" ⟨false, 10000, -2⟩ "RUB")
      = "100.00" ++ "|" ++ "RUB" ++ "|" ++ "e@x" ++ "|" ++ "4" ++ "|"
          ++ "1.2.3.4" ++ "|" ++ "7" ++ "|" ++ "ord-1" ++ "|" ++ "66058" :=
  ⟨rfl,
   (api_create_order_signing ⟨fun s => s, fun m k => m ++ "#" ++ k⟩ (fun _ => ⟨200, .ok "{}"⟩)
      (mkClient 66058 "s1" "s2" (some "key") none none none none none 1)
      7 4 "e@x" "1.2.3.4" "ord-1" ⟨false, 10000, -2⟩ "RUB" rfl).2.1⟩

/-- Claim C7: `api_get_order` builds the payload of exactly `shopId` (the
merchant id), `nonce` (the client's configured nonce) and `paymentId`,
signs it with the same sorted-key, pipe-joined hex HMAC-SHA256 procedure as
`api_create_order`, and posts it to `api_url ++ "orders"`. -/
theorem api_get_order_payload_and_signing (H : Hashes) (t : Transport)
    (c : Config) (payment_id : String) (h : pyTruthyStrOpt c.apiKey = true) :
    api_get_payload c payment_id
        = [("shopId", .int c.merchantId), ("nonce", .int c.nonce), ("paymentId", .str payment_id)]
    ∧ (sortPairs (api_get_payload c payment_id)).map Prod.fst = ["nonce", "paymentId", "shopId"]
    ∧ signMessage (api_get_payload c payment_id)
        = toString c.nonce ++ "|" ++ payment_id ++ "|" ++ toString c.merchantId
    ∧ (api_get_order H t c payment_id).1
        = [⟨c.apiUrl ++ "orders",
            api_get_payload c payment_id
              ++ [("signature", .str (H.hmacSha256Hex (signMessage (api_get_payload c payment_id))
                    (c.apiKey.getD "")))]⟩] := by
  refine ⟨rfl, ?_, ?_, ?_⟩
  · simp +decide [sortPairs, insertPair, api_get_payload]
  · simp +decide [signMessage, sortPairs, insertPair, api_get_payload, pyStr,
      String.intercalate, String.intercalate.go, String.append_assoc]
  · simp [api_get_order, h]

/-- Claim C7 witness: the status-request payload and message on a concrete
client. -/
theorem api_get_order_payload_and_signing_witness :
    pyTruthyStrOpt (Config.apiKey (mkClient 66058 "s1" "s2" (some "key") none none none none none 5)) = true
    ∧ signMessage (api_get_payload (mkClient 66058 "s1" "s2" (some "key") none none none none none 5) "ord-1")
      = "5" ++ "|" ++ "ord-1" ++ "|" ++ "66058" :=
  ⟨rfl,
   (api_get_order_payload_and_signing ⟨fun s => s, fun m k => m ++ "#" ++ k⟩
      (fun _ => ⟨200, .ok "{}"⟩)
      (mkClient 66058 "s1" "s2" (some "key") none none none none none 5) "ord-1" rfl).2.2.1⟩

/-- Claim C5: for any transport response, `api_get_order` propagates an
HTTP-status error on every 4xx/5xx status before looking at the JSON body,
while `api_create_order` never raises on status and returns the outcome of
JSON parsing regardless of the status — a deliberate asymmetry. -/
theorem order_status_error_asymmetry (H : Hashes) (c : Config) (nonce i : Int)
    (user_email user_ip payment_id : String) (amount : Dec) (currency : String)
    (resp : HttpResp) (h : pyTruthyStrOpt c.apiKey = true) :
    (400 ≤ resp.status → resp.status < 600 →
      (api_get_order H (fun _ => resp) c payment_id).2 = .error (.httpStatusError resp.status))
    ∧ (api_create_order H (fun _ => resp) c nonce i user_email user_ip payment_id amount currency).2
        = resp.jsonResult.mapError FKError.jsonParseError := by
  constructor
  · intro h1 h2
    simp [api_get_order, h, h1, h2]
  · simp [api_create_order, h]

/-- Claim C5 witness: a 404 response with an unparseable body — the status
fetch fails with the HTTP-status error (the parse error is never reached)
while order creation surfaces the parse outcome. -/
theorem order_status_error_asymmetry_witness :
    pyTruthyStrOpt (Config.apiKey (mkClient 66058 "s1" "s2" (some "key") none none none none none 1)) = true
    ∧ 400 ≤ 404 ∧ 404 < 600
    ∧ (api_get_order ⟨fun s => s, fun m k => m ++ "#" ++ k⟩ (fun _ => ⟨404, .error "not json"⟩)
        (mkClient 66058 "s1" "s2" (some "key") none none none none none 1) "ord-1").2
      = .error (.httpStatusError 404)
    ∧ (api_create_order ⟨fun s => s, fun m k => m ++ "#" ++ k⟩ (fun _ => ⟨404, .error "not json"⟩)
        (mkClient 66058 "s1" "s2" (some "key") none none none none none 1)
        7 4 "e@x" "1.2.3.4" "ord-1" ⟨false, 10000, -2⟩ "RUB").2
      = .error (.jsonParseError "not json") :=
  ⟨rfl, by decide, by decide,
   (order_status_error_asymmetry ⟨fun s => s, fun m k => m ++ "#" ++ k⟩
      (mkClient 66058 "s1" "s2" (some "key") none none none none none 1)
      7 4 "e@x" "1.2.3.4" "ord-1" ⟨false, 10000, -2⟩ "RUB"
      ⟨404, .error "not json"⟩ rfl).1 (by decide) (by decide),
   (order_status_error_asymmetry ⟨fun s => s, fun m k => m ++ "#" ++ k⟩
      (mkClient 66058 "s1" "s2" (some "key") none none none none none 1)
      7 4 "e@x" "1.2.3.4" "ord-1" ⟨false, 10000, -2⟩ "RUB"
      ⟨404, .error "not json"⟩ rfl).2⟩

/-- Claim C8 counterexample: supplying the empty string as base URL at
construction does not override the default — the constructor keeps the
default host, refuting the claim that every supplied base URL overrides the
corresponding default. -/
theorem base_url_empty_not_overriding :
    (mkClient 66058 "s1" "s2" none none none none (some "") (some "") 1).apiUrl
        = "https://api.fk.life/v1/"
    ∧ (mkClient 66058 "s1" "s2" none none none none (some "") (some "") 1).uiUrl
        = "https://pay.fk.money/"
    ∧ (mkClient 66058 "s1" "s2" none none none none (some "") (some "") 1).apiUrl ≠ ""
    ∧ (mkClient 66058 "s1" "s2" none none none none (some "") (some "") 1).uiUrl ≠ "" := by
  refine ⟨rfl, rfl, ?_, ?_⟩ <;> decide

/-- Claim C8 (amended): with the base URLs absent the client uses the
defaults `https://api.fk.life/v1/` (API) and `https://pay.fk.money/` (UI),
and a supplied non-empty base URL overrides the corresponding default,
which subsequent operations then use (here: the checkout URL is emitted
under the overridden UI base). -/
theorem base_url_defaults_and_nonempty_override (merchant_id : Int)
    (s1 s2 : String) (api_key success_url fail_url notify_url : Option String)
    (nonce : Int) (u v : String) (hu : u ≠ "") (hv : v ≠ "") :
    (mkClient merchant_id s1 s2 api_key success_url fail_url notify_url none none nonce).apiUrl
        = "https://api.fk.life/v1/"
    ∧ (mkClient merchant_id s1 s2 api_key success_url fail_url notify_url none none nonce).uiUrl
        = "https://pay.fk.money/"
    ∧ (mkClient merchant_id s1 s2 api_key success_url fail_url notify_url (some u) (some v) nonce).apiUrl = u
    ∧ (mkClient merchant_id s1 s2 api_key success_url fail_url notify_url (some u) (some v) nonce).uiUrl = v
    ∧ (∀ (H : Hashes) (amount : Dec) (currency payment_id : String) (payment_method_id : Int),
        ∃ rest, ui_create_order H
            (mkClient merchant_id s1 s2 api_key success_url fail_url notify_url (some u) (some v) nonce)
            amount currency payment_id payment_method_id = v ++ rest) := by
  refine ⟨rfl, rfl, ?_, ?_, ?_⟩
  · simp [mkClient, pyTruthyStrOpt, hu]
  · simp [mkClient, pyTruthyStrOpt, hv]
  · intro H amount currency payment_id payment_method_id
    refine ⟨"?" ++ urlencode
      [("m", toString merchant_id),
       ("oa", format2f amount),
       ("currency", currency),
       ("o", payment_id),
       ("s", H.md5hex (ui_sign_str
          (mkClient merchant_id s1 s2 api_key success_url fail_url notify_url (some u) (some v) nonce)
          amount currency payment_id)),
       ("i", toString payment_method_id)], ?_⟩
    simp [ui_create_order, mkClient, pyTruthyStrOpt, hv, String.append_assoc]

/-- Claim C8 witness: concrete overridden base URLs. -/
theorem base_url_defaults_and_nonempty_override_witness :
    ("https://api.example/" : String) ≠ "" ∧ ("https://ui.example/" : String) ≠ ""
    ∧ (mkClient 66058 "s1" "s2" none none none none (some "https://api.example/")
        (some "https://ui.example/") 1).apiUrl = "https://api.example/"
    ∧ (mkClient 66058 "s1" "s2" none none none none (some "https://api.example/")
        (some "https://ui.example/") 1).uiUrl = "https://ui.example/" :=
  ⟨by decide, by decide,
   (base_url_defaults_and_nonempty_override 66058 "s1" "s2" none none none none 1
      "https://api.example/" "https://ui.example/" (by decide) (by decide)).2.2.1,
   (base_url_defaults_and_nonempty_override 66058 "s1" "s2" none none none none 1
      "https://api.example/" "https://ui.example/" (by decide) (by decide)).2.2.2.1⟩

/-- Claim C9: for a fixed configuration, `ui_create_order` is a pure
function — two calls on the same inputs give the same string — and the
emitted query string lists the parameters in the stable order
`m, oa, currency, o, s, i`. -/
theorem ui_create_order_deterministic_stable_order (H : Hashes) (c : Config)
    (amount : Dec) (currency payment_id : String) (payment_method_id : Int) :
    ui_create_order H c amount currency payment_id payment_method_id
        = ui_create_order H c amount currency payment_id payment_method_id
    ∧ ∃ sig, ui_create_order H c amount currency payment_id payment_method_id
        = c.uiUrl ++ "?" ++ String.intercalate "&"
            ["m=" ++ quotePlus (toString c.merchantId),
             "oa=" ++ quotePlus (format2f amount),
             "currency=" ++ quotePlus currency,
             "o=" ++ quotePlus payment_id,
             "s=" ++ quotePlus sig,
             "i=" ++ quotePlus (toString payment_method_id)] := by
  refine ⟨rfl, ⟨H.md5hex (ui_sign_str c amount currency payment_id), ?_⟩⟩
  simp only [ui_create_order, urlencode, List.map]
  rfl

/-- Claim C6: the amount placed in the signature strings and payloads of
`ui_create_order` and `api_create_order` is `format2f amount`: a
fixed-point string with a sign, an integer part, and exactly 2 decimal
digits, whose printed cents are `|amount| * 100` (here `scaledNum /
scaledDen`, proved equal to `|valQ| * 100`) rounded to the nearest integer
with ties to even (round-half-even). -/
theorem amount_format_two_decimals_half_even (d : Dec) :
    ∃ cents : Nat,
      format2f d = (if d.neg then "-" else "") ++ toString (cents / 100) ++ "."
          ++ twoDigits (cents % 100)
      ∧ (twoDigits (cents % 100)).length = 2
      ∧ (scaledNum d : ℚ) / (scaledDen d : ℚ) = |valQ d| * 100
      ∧ (2 * ((scaledNum d : ℤ) - (cents : ℤ) * (scaledDen d : ℤ)).natAbs < scaledDen d
         ∨ (2 * ((scaledNum d : ℤ) - (cents : ℤ) * (scaledDen d : ℤ)).natAbs = scaledDen d
            ∧ cents % 2 = 0))
      ∧ (∀ (c : Config) (nonce i : Int) (user_email user_ip payment_id currency : String),
          List.lookup "amount" (api_create_payload c nonce i user_email user_ip payment_id d currency)
            = some (.str (format2f d)))
      ∧ (∀ (c : Config) (currency payment_id : String), ∃ pre post,
          ui_sign_str c d currency payment_id = pre ++ format2f d ++ post) := by
  refine ⟨centsOf d, rfl, rfl, scaled_eq d,
    roundHalfEvenNat_nearest (scaledNum d) (scaledDen d) (scaledDen_pos d), ?_, ?_⟩
  · intro c nonce i user_email user_ip payment_id currency
    simp +decide [api_create_payload, List.lookup]
  · intro c currency payment_id
    exact ⟨toString c.merchantId ++ ":", ":" ++ c.secret1 ++ ":" ++ currency ++ ":" ++ payment_id,
      by simp [ui_sign_str, String.append_assoc]⟩

end FreeKassa
